import Mathlib

/-!
Shallow embedding of the SmortMoney receipt-ingestion pipeline
(`SmortMoneyBackend/routes/transactionRoutes.ts`, POST /upload handler, together
with the parsing logic of `SmortMoneyBackend/services/geminiService.ts` and the
store schema of `SmortMoneyBackend/prisma/schema.prisma`).

The embedding starts from the decoded extraction response (the value produced by
`JSON.parse` on the cleaned inference-service text): candidates are JSON values,
JavaScript truthiness and `typeof` checks are modelled on them, and the Prisma
store is modelled as explicit state (category list, transaction list, id
counter).  The compiled entry point `dist/index.js` mounts the route compiled
from `routes/transactionRoutes.ts` (its build output `dist/routes/
transactionRoutes.js` matches that source); the embedding follows that live
variant.
-/

namespace SmortMoney

/-- JSON values as produced by `JSON.parse` in `geminiService.ts`.  JSON
numbers are finite decimal literals, represented here as rationals: `JSON.parse`
can produce neither `NaN` nor `Infinity`. -/
inductive Json where
  | null : Json
  | bool (b : Bool) : Json
  | num (q : ℚ) : Json
  | str (s : String) : Json
  | arr (elems : List Json) : Json
  | obj (fields : List (String × Json)) : Json
deriving Repr

/-- JavaScript truthiness of an optional JSON value (`none` plays the role of
`undefined`): `undefined`, `null`, `false`, `0` and `""` are falsy; every other
value, including `[]` and `{}`, is truthy. -/
def truthy : Option Json → Bool
  | none => false
  | some .null => false
  | some (.bool b) => b
  | some (.num q) => !(q == 0)
  | some (.str s) => !(s == "")
  | some (.arr _) => true
  | some (.obj _) => true

/-- JavaScript property access `v.key` on a decoded JSON value: object lookup
(last duplicate key wins, as after `JSON.parse`), `undefined` (`none`) on every
non-object. -/
def getField : Json → String → Option Json
  | .obj fields, key => fields.foldl (fun acc kv => if kv.1 = key then some kv.2 else acc) none
  | _, _ => none

/-- The `typeof x === 'number'` check of the upload handler. -/
def isNum : Option Json → Bool
  | some (.num _) => true
  | _ => false

/-- Whether a JSON value is an array (`Array.isArray`). -/
def isArr : Json → Bool
  | .arr _ => true
  | _ => false

/-- Gregorian leap-year rule, as used by the JavaScript `Date` parser. -/
def isLeapYear (y : Nat) : Bool :=
  (y % 4 == 0 && !(y % 100 == 0)) || y % 400 == 0

/-- Number of days in month `m` of year `y`. -/
def daysInMonth (y m : Nat) : Nat :=
  if m == 2 then (if isLeapYear y then 29 else 28)
  else if m == 4 || m == 6 || m == 9 || m == 11 then 30
  else 31

/-- Numeric value of a decimal digit character. -/
def digitVal (c : Char) : Nat := c.toNat - 48

/-- Validity of a date string under the `YYYY-MM-DD` ISO form that the
extraction prompt requests (`geminiService.ts`): four digits, dash, two digits,
dash, two digits, with the month in 1..12 and the day within the month's length
(leap years included).  This models the JavaScript ISO date parser on that
grammar; `new Date` on such a string is an Invalid Date exactly when this
returns false. -/
def isoDateValid (s : String) : Bool :=
  match s.toList with
  | [y1, y2, y3, y4, sep1, m1, m2, sep2, d1, d2] =>
    if y1.isDigit && y2.isDigit && y3.isDigit && y4.isDigit && sep1 == '-' &&
       m1.isDigit && m2.isDigit && sep2 == '-' && d1.isDigit && d2.isDigit then
      if 1 ≤ digitVal m1 * 10 + digitVal m2 ∧ digitVal m1 * 10 + digitVal m2 ≤ 12 ∧
         1 ≤ digitVal d1 * 10 + digitVal d2 ∧
         digitVal d1 * 10 + digitVal d2 ≤
           daysInMonth (((digitVal y1 * 10 + digitVal y2) * 10 + digitVal y3) * 10 + digitVal y4)
             (digitVal m1 * 10 + digitVal m2) then
        true
      else false
    else false
  | _ => false

/-- Largest timestamp magnitude (in milliseconds) representable by a JavaScript
`Date`. -/
def maxTimeValue : ℚ := 8640000000000000

/-- Validity of the JavaScript `Date` built by `new Date(v)` for a decoded JSON
value `v`: a string is valid iff it parses as a calendar date (modelled on the
`YYYY-MM-DD` grammar the prompt requests), a number is valid iff it is a
representable timestamp, `null` and booleans coerce to small numeric timestamps,
and arrays/objects yield an Invalid Date. -/
def jsNewDateValid : Json → Bool
  | .str s => isoDateValid s
  | .num q => if -maxTimeValue ≤ q ∧ q ≤ maxTimeValue then true else false
  | .bool _ => true
  | .null => true
  | .arr _ => false
  | .obj _ => false

/-- `new Date(d)` validity for an optional field value; an absent field
(`new Date(undefined)`) gives an Invalid Date. -/
def dateValidOpt : Option Json → Bool
  | none => false
  | some d => jsNewDateValid d

/-- A row of the `Category` table (`prisma/schema.prisma`): unique name and
optional icon label; ids are modelled as naturals drawn from a counter. -/
structure Category where
  id : Nat
  name : String
  iconName : Option String
deriving Repr, DecidableEq

/-- A row of the `Transaction` table (`prisma/schema.prisma`): the fields the
upload handler writes.  `date` keeps the decoded JSON value whose `new Date`
conversion was validated by the store layer. -/
structure Transaction where
  id : Nat
  merchant : String
  amount : ℚ
  date : Json
  categoryId : Option Nat
deriving Repr

/-- The persistent store visible to the upload route: category rows,
transaction rows (in insertion order), and the id counter. -/
structure Store where
  categories : List Category
  transactions : List Transaction
  nextId : Nat
deriving Repr

/-- A failure descriptor pushed onto the handler's `errors` array: a message
and, for the field-validation failures, the offending candidate as `data`. -/
structure ErrDesc where
  message : String
  data : Option Json
deriving Repr

/-- Message pushed when a candidate fails the required-field truthiness check
(`transactionRoutes.ts`, upload handler). -/
def missingFieldsMsg : String := "Transaction missing required fields (merchant/amount/date)"

/-- Message pushed when a candidate's amount fails the `typeof` numeric check. -/
def amountTypeMsg : String := "Transaction amount must be a number value"

/-- Body of the 500 response produced by the handler's outer catch block. -/
def serverErrorMsg : String := "Server error processing receipt"

/-- Body of the 400 response when no file accompanied the request. -/
def noFileMsg : String := "Please upload a receipt"

/-- Prisma validation error raised by `category.findFirst` when the `equals`
filter value for the `String` column `name` is not a string (modelled error
text; only its occurrence, not its wording, is load-bearing). -/
def categoryFilterMsg : String := "Invalid value provided for where.name.equals. Expected String."

/-- Prisma error raised by `transaction.create` when the `Date` object built by
`new Date(extractedField.date)` is invalid: serializing an Invalid Date fails. -/
def invalidDateMsg : String := "Provided Date object is invalid"

/-- Prisma validation error raised by `transaction.create` when `merchant` is
not a string (the schema column is `String`). -/
def merchantTypeMsg : String := "Invalid value provided for merchant. Expected String."

/-- Prisma validation error raised by `transaction.create` when `amount` is not
a number (unreachable from the route, which checks `typeof` first). -/
def amountFieldMsg : String := "Invalid value provided for amount. Expected Float."

/-- JavaScript string coercion of an optional JSON value, as used by the
template literal `Failed to save transaction ${extractedField.merchant}: ...`.
The string case (the only one the route's messages can reach with a string
merchant) is exact; the rendering of non-integral numbers and arrays is an
approximation, as no claim depends on it. -/
def jsDisplay : Option Json → String
  | none => "undefined"
  | some .null => "null"
  | some (.bool true) => "true"
  | some (.bool false) => "false"
  | some (.str s) => s
  | some (.num q) => if q.den = 1 then toString q.num else toString q.num ++ "/" ++ toString q.den
  | some (.arr _) => ""
  | some (.obj _) => "[object Object]"

/-- Message of the failure descriptor pushed by the per-candidate catch block:
`Failed to save transaction ${extractedField.merchant}: ${innerError?.message}`. -/
def saveFailMsg (merchant : Option Json) (err : String) : String :=
  "Failed to save transaction " ++ jsDisplay merchant ++ ": " ++ err

/-- `prisma.category.findFirst({where: {name: {equals: label}}, select: {id}})`:
id of the first category whose name equals the label exactly, if any. -/
def categoryFindFirst (st : Store) (label : String) : Option Nat :=
  (st.categories.find? (fun cat => cat.name == label)).map Category.id

/-- The category-resolution step of the upload handler: skipped for a falsy
`extractedField.category`; an exact-name `findFirst` for a truthy string label;
a Prisma validation error for a truthy non-string label.  The live route never
creates a category. -/
def categoryResolve (st : Store) (categoryField : Option Json) : Except String (Option Nat) :=
  if truthy categoryField then
    match categoryField with
    | some (.str s) => .ok (categoryFindFirst st s)
    | _ => .error categoryFilterMsg
  else
    .ok none

/-- `prisma.transaction.create` with the schema of `prisma/schema.prisma`:
requires a string `merchant`, a numeric `amount` and a `date` whose `new Date`
conversion is valid (Prisma raises on an invalid Date object); on success it
appends the row and advances the id counter. -/
def transactionCreate (st : Store) (merchant amount date : Option Json)
    (categoryId : Option Nat) : Except String (Store × Transaction) :=
  match merchant with
  | some (.str m) =>
    match amount with
    | some (.num q) =>
      match date with
      | some d =>
        if jsNewDateValid d then
          .ok ({ st with
                  transactions := st.transactions ++ [⟨st.nextId, m, q, d, categoryId⟩],
                  nextId := st.nextId + 1 },
               ⟨st.nextId, m, q, d, categoryId⟩)
        else
          .error invalidDateMsg
      | none => .error invalidDateMsg
    | _ => .error amountFieldMsg
  | _ => .error merchantTypeMsg

/-- One iteration of the per-candidate loop of the upload handler: the
required-field truthiness check, category resolution, the `typeof` amount
check, the `prisma.transaction.create` call, and the inner catch block that
converts any thrown error into a failure descriptor. -/
def processCandidate (st : Store) (c : Json) : Store × (Transaction ⊕ ErrDesc) :=
  if !truthy (some c) || !truthy (getField c "merchant") ||
     !truthy (getField c "amount") || !truthy (getField c "date") then
    (st, Sum.inr ⟨missingFieldsMsg, some c⟩)
  else
    match categoryResolve st (getField c "category") with
    | .error e => (st, Sum.inr ⟨saveFailMsg (getField c "merchant") e, none⟩)
    | .ok categoryId =>
      if !isNum (getField c "amount") then
        (st, Sum.inr ⟨amountTypeMsg, some c⟩)
      else
        match transactionCreate st (getField c "merchant") (getField c "amount")
            (getField c "date") categoryId with
        | .ok (st2, t) => (st2, Sum.inl t)
        | .error e => (st, Sum.inr ⟨saveFailMsg (getField c "merchant") e, none⟩)

/-- The whole per-candidate loop: threads the store through the candidates and
accumulates the `savedTransactions` and `errors` arrays in order. -/
def ingestLoop (st : Store) : List Json → Store × List Transaction × List ErrDesc
  | [] => (st, [], [])
  | c :: rest =>
    match processCandidate st c with
    | (st1, Sum.inl t) =>
      match ingestLoop st1 rest with
      | (st2, saved, errs) => (st2, t :: saved, errs)
    | (st1, Sum.inr e) =>
      match ingestLoop st1 rest with
      | (st2, saved, errs) => (st2, saved, e :: errs)

/-- The parsing half of `analyzeTransactionImage` (`geminiService.ts`), applied
to the `JSON.parse` result of the cleaned response text (`none` when the text
is undecodable): a non-array decode or a parse failure raises a descriptive
error, which the service's outer catch rethrows wrapped; an array is returned
as the candidate list. -/
def analyzeTransactionImage (decoded : Option Json) : Except String (List Json) :=
  match decoded with
  | none =>
    .error ("Failed to analyze transaction image with Gemini: " ++
            "Failed to parse Gemini response: Unexpected token")
  | some (.arr elems) => .ok elems
  | some _ =>
    .error ("Failed to analyze transaction image with Gemini: " ++
            "Gemini response was not in the expected array format.")

/-- Declared metadata of the uploaded file as multer presents it. -/
structure FileInfo where
  mimetype : String
  size : Nat
deriving Repr, DecidableEq

/-- String prefix test (`s.startsWith(pre)`), computed on the character
lists. -/
def strStartsWith (s pre : String) : Bool := pre.toList.isPrefixOf s.toList

/-- The multer `fileFilter` of the route: accept only `image/*` MIME types
(`file.mimetype.startsWith('image/')`). -/
def fileFilterAccepts (f : FileInfo) : Bool := strStartsWith f.mimetype "image/"

/-- The multer `limits.fileSize` ceiling: 10 * 1024 * 1024 bytes. -/
def sizeLimit : Nat := 10 * 1024 * 1024

/-- Whether the file passes the multer size limit (at most `sizeLimit` bytes). -/
def withinSizeLimit (f : FileInfo) : Bool := f.size ≤ sizeLimit

/-- The summary string of the 201 response:
`Processed ${extractedFields.length} potential transactions, successfully saved
${savedTransactions.length}`. -/
def successMsg (found saved : Nat) : String :=
  "Processed " ++ toString found ++ " potential transactions, successfully saved " ++
    toString saved

/-- Outcome of the upload request as the client sees it: a 201 with the summary
message, the saved transactions and (only when non-empty) the errors array; a
400 client error sent by the handler; a 500 server error sent by the handler's
catch block; or the 500 that Express's default error handler produces for an
error passed to `next(err)` by middleware (carrying that error's message) —
the route installs no error-handling middleware, so multer-stage rejections
end there without the handler ever running. -/
inductive UploadResult where
  | created (message : String) (transactions : List Transaction) (errors : Option (List ErrDesc))
  | clientError (message : String)
  | serverError (message : String)
  | expressError (message : String)
deriving Repr

/-- The body of the POST /upload handler (after multer): missing file → 400;
extraction/parse failure or an empty candidate array → the outer catch's 500;
otherwise the per-candidate loop, then a 201 when at least one transaction was
saved (errors attached only when non-empty), and the outer catch's 500 when
none was (`Failed to save any transactions ...` is thrown and swallowed into
the generic 500 body). -/
def uploadHandler : Store → Option FileInfo → Option Json → Store × UploadResult
  | st, none, _ => (st, .clientError noFileMsg)
  | st, some _, decoded =>
    match analyzeTransactionImage decoded with
    | .error _ => (st, .serverError serverErrorMsg)
    | .ok extractedFields =>
      if extractedFields.length = 0 then
        (st, .serverError serverErrorMsg)
      else
        match ingestLoop st extractedFields with
        | (st2, saved, errs) =>
          if saved.length > 0 then
            (st2, .created (successMsg extractedFields.length saved.length) saved
                    (if errs.isEmpty then none else some errs))
          else
            (st2, .serverError serverErrorMsg)

/-- The full route including the multer stage.  `upload.single('screenshot')`
runs as middleware before the handler: a file rejected by `fileFilter` makes
multer call `next` with `Error('Only image files are allowed for receipts!')`,
and one over the size limit makes it call `next` with
`MulterError('LIMIT_FILE_SIZE')` (message `File too large`).  Express then
skips the route handler entirely — its try/catch and the error mapping in it
never run — and, since `index.js` registers no error-handling middleware, the
default final handler answers both rejections with a 500 carrying the error's
message.  Only an accepted (or absent) file reaches the handler body. -/
def postUpload : Store → Option FileInfo → Option Json → Store × UploadResult
  | st, some f, decoded =>
    if !fileFilterAccepts f then
      (st, .expressError "Only image files are allowed for receipts!")
    else if !withinSizeLimit f then
      (st, .expressError "File too large")
    else
      uploadHandler st (some f) decoded
  | st, none, decoded => uploadHandler st none decoded

/-- Whether an optional JSON value is a string. -/
def isStr : Option Json → Bool
  | some (.str _) => true
  | _ => false

/-- The condition under which the category-resolution step throws: a truthy
`extractedField.category` that is not a string (Prisma rejects the non-string
`equals` filter). -/
def categoryFilterBad (v : Option Json) : Bool := truthy v && !isStr v

/-- The category id the resolution step yields when it does not throw: an
exact-name lookup for a truthy string label, `none` (uncategorized) for a falsy
field. -/
def resolvedCategoryId (st : Store) : Option Json → Option Nat
  | some (.str s) => if s = "" then none else categoryFindFirst st s
  | _ => none

/-- The error `prisma.transaction.create` raises as a function of the field
values alone (the store never affects whether a create throws): non-string
merchant, then non-numeric amount, then invalid date. -/
def createFails (merchant amount date : Option Json) : Option String :=
  match merchant with
  | some (.str _) =>
    match amount with
    | some (.num _) => if dateValidOpt date then none else some invalidDateMsg
    | _ => some amountFieldMsg
  | _ => some merchantTypeMsg

/-- String content of an optional JSON value (defaulting to `""`). -/
def optStr : Option Json → String
  | some (.str s) => s
  | _ => ""

/-- Numeric content of an optional JSON value (defaulting to `0`). -/
def optNum : Option Json → ℚ
  | some (.num q) => q
  | _ => 0

/-- The JSON value itself, defaulting to `null` when absent. -/
def optJsonD (v : Option Json) : Json := v.getD .null

/-- Store-independent classification of a candidate's fate in the per-candidate
loop: `some e` when the iteration pushes failure descriptor `e` (leaving the
store untouched), `none` when it persists a transaction.  Mirrors the branch
order of the handler: required-field truthiness, category filter, `typeof`
amount, then the create call.  Its agreement with `processCandidate` is proved
below. -/
def candidateFails (c : Json) : Option ErrDesc :=
  if !truthy (some c) || !truthy (getField c "merchant") ||
     !truthy (getField c "amount") || !truthy (getField c "date") then
    some ⟨missingFieldsMsg, some c⟩
  else if categoryFilterBad (getField c "category") then
    some ⟨saveFailMsg (getField c "merchant") categoryFilterMsg, none⟩
  else if !isNum (getField c "amount") then
    some ⟨amountTypeMsg, some c⟩
  else
    match createFails (getField c "merchant") (getField c "amount") (getField c "date") with
    | some e => some ⟨saveFailMsg (getField c "merchant") e, none⟩
    | none => none

/-- The transaction row a successful iteration persists for candidate `c` from
store `st`. -/
def mkTransaction (st : Store) (c : Json) : Transaction :=
  ⟨st.nextId, optStr (getField c "merchant"), optNum (getField c "amount"),
   optJsonD (getField c "date"), resolvedCategoryId st (getField c "category")⟩

/-- A candidate violating the spec's persistence invariant: its merchant field
is not a non-empty string, or its amount is not a (finite, as all decoded JSON
numbers are) number, or its date does not convert to a valid calendar date. -/
def violatesInvariant (c : Json) : Bool :=
  (match getField c "merchant" with
   | some (.str s) => s == ""
   | _ => true) ||
  !isNum (getField c "amount") ||
  !dateValidOpt (getField c "date")

/-- An empty store. -/
def stEmpty : Store := ⟨[], [], 0⟩

/-- A store already holding a `Dining` category. -/
def stDining : Store := ⟨[⟨7, "Dining", none⟩], [], 10⟩

/-- A well-formed image upload. -/
def imgFile : FileInfo := ⟨"image/png", 1000⟩

/-- An upload whose declared content type is not an image. -/
def txtFile : FileInfo := ⟨"text/plain", 4⟩

/-- An image upload over the 10 MiB size limit. -/
def bigFile : FileInfo := ⟨"image/png", 10 * 1024 * 1024 + 1⟩

/-- The rational −12.5 in normalized `num/den` form, so that equality on it
computes by reduction. -/
def negTwelvePointFive : ℚ := ⟨-25, 2, by decide, by decide⟩

/-- The spec's example candidate `Cafe Luna` (amount −12.5, date 2024-03-15,
category `Dining`). -/
def candCafeLuna : Json :=
  .obj [("merchant", .str "Cafe Luna"), ("amount", .num negTwelvePointFive),
        ("date", .str "2024-03-15"), ("category", .str "Dining")]

/-- The spec's example candidate `Payroll` (amount 2000, date 2024-03-14,
category `Income`). -/
def candPayroll : Json :=
  .obj [("merchant", .str "Payroll"), ("amount", .num 2000),
        ("date", .str "2024-03-14"), ("category", .str "Income")]

/-- The spec's `BatchExhausted` scenario candidate: merchant `null`, amount 5,
date 2024-01-01, category `Other`. -/
def candNullMerchant : Json :=
  .obj [("merchant", .null), ("amount", .num 5),
        ("date", .str "2024-01-01"), ("category", .str "Other")]

/-- A candidate whose amount is a string rather than a number. -/
def candBadAmount : Json :=
  .obj [("merchant", .str "Shop"), ("amount", .str "abc"),
        ("date", .str "2024-03-10"), ("category", .str "Shopping")]

/-- A candidate whose date string does not parse to a calendar date. -/
def candBadDate : Json :=
  .obj [("merchant", .str "Cafe"), ("amount", .num 5),
        ("date", .str "not-a-date"), ("category", .null)]

/-- A candidate with merchant and date present and well-formed but amount
exactly 0. -/
def candZeroAmount : Json :=
  .obj [("merchant", .str "Shop"), ("amount", .num 0),
        ("date", .str "2024-01-01"), ("category", .str "Other")]

theorem categoryResolve_eq (st : Store) (v : Option Json) :
    categoryResolve st v =
      if categoryFilterBad v then Except.error categoryFilterMsg
      else Except.ok (resolvedCategoryId st v) := by
  cases v with
  | none => simp [categoryResolve, categoryFilterBad, truthy, isStr, resolvedCategoryId]
  | some j =>
    cases j with
    | str s =>
      by_cases hs : s = "" <;>
        simp [categoryResolve, categoryFilterBad, truthy, isStr, resolvedCategoryId, hs]
    | null => simp [categoryResolve, categoryFilterBad, truthy, isStr, resolvedCategoryId]
    | bool b =>
      cases b <;> simp [categoryResolve, categoryFilterBad, truthy, isStr, resolvedCategoryId]
    | num q =>
      by_cases hq : q = 0 <;>
        simp [categoryResolve, categoryFilterBad, truthy, isStr, resolvedCategoryId, hq]
    | arr xs => simp [categoryResolve, categoryFilterBad, truthy, isStr, resolvedCategoryId]
    | obj fs => simp [categoryResolve, categoryFilterBad, truthy, isStr, resolvedCategoryId]

theorem transactionCreate_eq (st : Store) (m a d : Option Json) (cid : Option Nat) :
    transactionCreate st m a d cid =
      match createFails m a d with
      | some e => Except.error e
      | none =>
        Except.ok
          ({ st with
              transactions :=
                st.transactions ++ [⟨st.nextId, optStr m, optNum a, optJsonD d, cid⟩],
              nextId := st.nextId + 1 },
           ⟨st.nextId, optStr m, optNum a, optJsonD d, cid⟩) := by
  cases m with
  | none => simp [transactionCreate, createFails]
  | some jm =>
    cases jm <;> try simp [transactionCreate, createFails]
    case str ms =>
      cases a with
      | none => simp [transactionCreate, createFails]
      | some ja =>
        cases ja <;> try simp [transactionCreate, createFails]
        case num q =>
          cases d with
          | none => simp [transactionCreate, createFails, dateValidOpt]
          | some jd =>
            by_cases hd : jsNewDateValid jd = true <;>
              simp [transactionCreate, createFails, dateValidOpt, optStr, optNum, optJsonD, hd]

theorem processCandidate_of_fail (st : Store) (c : Json) (e : ErrDesc)
    (h : candidateFails c = some e) : processCandidate st c = (st, Sum.inr e) := by
  unfold candidateFails at h
  unfold processCandidate
  rw [categoryResolve_eq]
  cases h1 : (!truthy (some c) || !truthy (getField c "merchant") ||
      !truthy (getField c "amount") || !truthy (getField c "date")) with
  | true =>
    rw [h1] at h
    simp at h
    simp [h1, ← h]
  | false =>
    rw [h1] at h
    simp only [Bool.false_eq_true, if_false] at h ⊢
    cases h2 : categoryFilterBad (getField c "category") with
    | true =>
      rw [h2] at h
      simp at h
      simp [← h]
    | false =>
      rw [h2] at h
      simp only [Bool.false_eq_true, if_false] at h ⊢
      cases h3 : (!isNum (getField c "amount")) with
      | true =>
        rw [h3] at h
        simp at h
        simp [h3, ← h]
      | false =>
        rw [h3] at h
        simp only [Bool.false_eq_true, if_false] at h ⊢
        rw [transactionCreate_eq]
        cases h4 : createFails (getField c "merchant") (getField c "amount")
            (getField c "date") with
        | some msg =>
          rw [h4] at h
          simp at h
          simp [h3, ← h]
        | none =>
          rw [h4] at h
          simp at h

theorem processCandidate_of_success (st : Store) (c : Json)
    (h : candidateFails c = none) :
    processCandidate st c =
      ({ st with
          transactions := st.transactions ++ [mkTransaction st c],
          nextId := st.nextId + 1 },
       Sum.inl (mkTransaction st c)) := by
  unfold candidateFails at h
  unfold processCandidate
  rw [categoryResolve_eq]
  cases h1 : (!truthy (some c) || !truthy (getField c "merchant") ||
      !truthy (getField c "amount") || !truthy (getField c "date")) with
  | true => rw [h1] at h; simp at h
  | false =>
    rw [h1] at h
    simp only [Bool.false_eq_true, if_false] at h ⊢
    cases h2 : categoryFilterBad (getField c "category") with
    | true => rw [h2] at h; simp at h
    | false =>
      rw [h2] at h
      simp only [Bool.false_eq_true, if_false] at h ⊢
      cases h3 : (!isNum (getField c "amount")) with
      | true => rw [h3] at h; simp at h
      | false =>
        rw [h3] at h
        simp only [Bool.false_eq_true, if_false] at h ⊢
        rw [transactionCreate_eq]
        cases h4 : createFails (getField c "merchant") (getField c "amount")
            (getField c "date") with
        | some msg => rw [h4] at h; simp at h
        | none =>
          rw [h4] at h
          simp [h3, mkTransaction]

theorem processCandidate_categories (st : Store) (c : Json) :
    (processCandidate st c).1.categories = st.categories := by
  cases h : candidateFails c with
  | some e => rw [processCandidate_of_fail st c e h]
  | none => rw [processCandidate_of_success st c h]

theorem processCandidate_inr_inv (st st2 : Store) (c : Json) (e : ErrDesc)
    (h : processCandidate st c = (st2, Sum.inr e)) :
    st2 = st ∧ candidateFails c = some e := by
  cases hf : candidateFails c with
  | some e1 =>
    rw [processCandidate_of_fail st c e1 hf] at h
    have h1 := congrArg Prod.fst h
    have h2 := congrArg Prod.snd h
    simp at h1 h2
    exact ⟨h1.symm, congrArg some h2⟩
  | none =>
    rw [processCandidate_of_success st c hf] at h
    exact absurd (congrArg Prod.snd h) (by simp)

theorem processCandidate_inl_inv (st st2 : Store) (c : Json) (t : Transaction)
    (h : processCandidate st c = (st2, Sum.inl t)) :
    candidateFails c = none ∧ t = mkTransaction st c ∧
      st2.transactions = st.transactions ++ [t] := by
  cases hf : candidateFails c with
  | some e1 =>
    rw [processCandidate_of_fail st c e1 hf] at h
    exact absurd (congrArg Prod.snd h) (by simp)
  | none =>
    rw [processCandidate_of_success st c hf] at h
    have h1 := congrArg Prod.fst h
    have h2 := congrArg Prod.snd h
    simp at h1 h2
    subst h2
    simp [← h1]

theorem ingestLoop_append (st : Store) (xs ys : List Json) :
    ingestLoop st (xs ++ ys) =
      ((ingestLoop (ingestLoop st xs).1 ys).1,
       (ingestLoop st xs).2.1 ++ (ingestLoop (ingestLoop st xs).1 ys).2.1,
       (ingestLoop st xs).2.2 ++ (ingestLoop (ingestLoop st xs).1 ys).2.2) := by
  induction xs generalizing st with
  | nil => simp [ingestLoop]
  | cons c rest ih =>
    simp only [List.cons_append, ingestLoop]
    cases hpc : processCandidate st c with
    | mk st1 r =>
      cases r with
      | inl t => simp [hpc, ih]
      | inr e => simp [hpc, ih]

theorem ingestLoop_count (st : Store) (cs : List Json) :
    (ingestLoop st cs).2.1.length + (ingestLoop st cs).2.2.length = cs.length := by
  induction cs generalizing st with
  | nil => simp [ingestLoop]
  | cons c rest ih =>
    simp only [ingestLoop]
    cases hpc : processCandidate st c with
    | mk st1 r =>
      have h := ih st1
      cases hr : ingestLoop st1 rest with
      | mk st2 p =>
        rw [hr] at h
        cases r with
        | inl t =>
          simp only [hpc, hr]
          simp at h ⊢
          omega
        | inr e =>
          simp only [hpc, hr]
          simp at h ⊢
          omega

theorem createFails_none_inv (m a d : Option Json) (h : createFails m a d = none) :
    isStr m = true ∧ isNum a = true ∧ dateValidOpt d = true := by
  unfold createFails at h
  cases m with
  | none => simp at h
  | some jm =>
    cases jm <;> simp_all [isStr]
    case str s =>
      cases a with
      | none => simp at h
      | some ja =>
        cases ja <;> simp_all [isNum]

theorem candidateFails_none_inv (c : Json) (h : candidateFails c = none) :
    truthy (some c) = true ∧ truthy (getField c "merchant") = true ∧
    truthy (getField c "amount") = true ∧ truthy (getField c "date") = true ∧
    isStr (getField c "merchant") = true ∧ isNum (getField c "amount") = true ∧
    dateValidOpt (getField c "date") = true := by
  unfold candidateFails at h
  cases h1 : (!truthy (some c) || !truthy (getField c "merchant") ||
      !truthy (getField c "amount") || !truthy (getField c "date")) with
  | true => rw [h1] at h; simp at h
  | false =>
    rw [h1] at h
    simp only [Bool.false_eq_true, if_false] at h
    cases h2 : categoryFilterBad (getField c "category") with
    | true => rw [h2] at h; simp at h
    | false =>
      rw [h2] at h
      simp only [Bool.false_eq_true, if_false] at h
      cases h3 : (!isNum (getField c "amount")) with
      | true => rw [h3] at h; simp at h
      | false =>
        rw [h3] at h
        simp only [Bool.false_eq_true, if_false] at h
        cases h4 : createFails (getField c "merchant") (getField c "amount")
            (getField c "date") with
        | some e => rw [h4] at h; simp at h
        | none =>
          obtain ⟨hm, ha, hd⟩ := createFails_none_inv _ _ _ h4
          simp at h1
          obtain ⟨⟨⟨hc1, hc2⟩, hc3⟩, hc4⟩ := h1
          exact ⟨hc1, hc2, hc3, hc4, hm, ha, hd⟩

/-- Claim C1 counterexample: ingesting the spec's `Cafe Luna` candidate (label
`Dining`) against an empty store creates no category at all — the category
table stays empty — and the persisted transaction references no category,
refuting the claimed find-or-create resolution (the live route only runs
`findFirst`; it never creates). -/
theorem c1_no_category_created :
    (postUpload stEmpty (some imgFile) (some (.arr [candCafeLuna]))).1.categories = [] ∧
    ((postUpload stEmpty (some imgFile) (some (.arr [candCafeLuna]))).1.transactions.map
        Transaction.categoryId) = [none] :=
  ⟨rfl, rfl⟩

/-- Claim C1 (amended): category resolution is find-only by exact name
equality: for a candidate with a non-empty string label, resolution yields
exactly the `findFirst` result (the existing category's id, or none — in which
case the transaction is persisted uncategorized and nothing is created); a
persisted transaction references that result; the category table is never
changed, so resolving the same label again, sequentially, yields the same
category identity with no duplicate created. -/
theorem c1_find_only_resolution (st : Store) (c : Json) (label : String)
    (hcat : getField c "category" = some (.str label)) (hne : label ≠ "") :
    categoryResolve st (getField c "category") = .ok (categoryFindFirst st label) ∧
    (∀ st2 t, processCandidate st c = (st2, Sum.inl t) →
        t.categoryId = categoryFindFirst st label ∧ st2.categories = st.categories) ∧
    (∀ st2 r, processCandidate st c = (st2, r) →
        categoryFindFirst st2 label = categoryFindFirst st label) := by
  refine ⟨?_, ?_, ?_⟩
  · rw [hcat]
    simp [categoryResolve, truthy, hne]
  · intro st2 t h
    obtain ⟨hf, ht, -⟩ := processCandidate_inl_inv st st2 c t h
    constructor
    · rw [ht]
      simp [mkTransaction, resolvedCategoryId, hcat, hne]
    · have := processCandidate_categories st c
      rw [h] at this
      exact this
  · intro st2 r h
    have := processCandidate_categories st c
    rw [h] at this
    unfold categoryFindFirst
    rw [this]

/-- Claim C3: whenever the per-candidate loop over a non-empty batch persists
zero transactions, the whole request fails with the handler's 500 even though
failure descriptors were collected (with nothing saved, every candidate left a
descriptor, so the error list is necessarily non-empty); in particular, for the
single candidate with a `null` merchant (amount 5, date 2024-01-01, category
`Other`), ingest persists zero transactions, records exactly one failure
descriptor whose message cites the missing merchant among the required fields,
and the whole request is fatal. -/
theorem c3_batch_exhausted_is_fatal :
    (∀ st f xs, fileFilterAccepts f = true → withinSizeLimit f = true → xs ≠ [] →
        (ingestLoop st xs).2.1 = [] →
        (ingestLoop st xs).2.2 ≠ [] ∧
        postUpload st (some f) (some (.arr xs)) =
          ((ingestLoop st xs).1, .serverError serverErrorMsg)) ∧
    postUpload stEmpty (some imgFile) (some (.arr [candNullMerchant])) =
      (stEmpty, .serverError serverErrorMsg) ∧
    ingestLoop stEmpty [candNullMerchant] =
      (stEmpty, [], [⟨missingFieldsMsg, some candNullMerchant⟩]) ∧
    missingFieldsMsg = "Transaction missing required fields (merchant/amount/date)" := by
  refine ⟨?_, rfl, rfl, rfl⟩
  intro st f xs hmime hsize hne hz
  constructor
  · have hc := ingestLoop_count st xs
    rw [hz] at hc
    intro hnil
    rw [hnil] at hc
    simp at hc
    exact hne (List.eq_nil_of_length_eq_zero (by omega))
  · simp only [postUpload, uploadHandler, analyzeTransactionImage, hmime, hsize,
      Bool.not_true, Bool.false_eq_true, if_false]
    rw [if_neg (by simpa using hne)]
    cases hr : ingestLoop st xs with
    | mk st2 p =>
      cases p with
      | mk saved errs =>
        rw [hr] at hz
        simp only at hz ⊢
        rw [hz]
        simp

/-- Claim C3 witness: the general zero-persisted rule applied to the concrete
null-merchant batch — the descriptor list is non-empty and the request is
fatal. -/
theorem c3_batch_exhausted_witness :
    (ingestLoop stEmpty [candNullMerchant]).2.2 ≠ [] ∧
    postUpload stEmpty (some imgFile) (some (.arr [candNullMerchant])) =
      ((ingestLoop stEmpty [candNullMerchant]).1, .serverError serverErrorMsg) :=
  c3_batch_exhausted_is_fatal.1 stEmpty imgFile [candNullMerchant] rfl (by decide)
    (by simp) rfl

/-- Claim C8 counterexample: for the spec's two-candidate scenario (both
saved), the live route's summary string is
`Processed 2 potential transactions, successfully saved 2`, which is not the
claimed `Processed 2 potential transactions. Saved 2.`. -/
theorem c8_summary_differs :
    (postUpload stEmpty (some imgFile) (some (.arr [candCafeLuna, candPayroll]))).2 =
      UploadResult.created "Processed 2 potential transactions, successfully saved 2"
        [⟨0, "Cafe Luna", negTwelvePointFive, .str "2024-03-15", none⟩,
         ⟨1, "Payroll", 2000, .str "2024-03-14", none⟩] none ∧
    "Processed 2 potential transactions, successfully saved 2" ≠
      "Processed 2 potential transactions. Saved 2." :=
  ⟨rfl, by decide⟩

/-- Claim C8 (amended): for a successful ingest that extracted N candidates and
saved M transactions, the response summary string is exactly
`Processed N potential transactions, successfully saved M`. -/
theorem c8_summary_format (st : Store) (f : FileInfo) (xs : List Json)
    (hmime : fileFilterAccepts f = true) (hsize : withinSizeLimit f = true)
    (hne : xs ≠ []) (hsaved : (ingestLoop st xs).2.1 ≠ []) :
    ∃ errsOpt, (postUpload st (some f) (some (.arr xs))).2 =
      UploadResult.created
        ("Processed " ++ toString xs.length ++
          " potential transactions, successfully saved " ++
          toString (ingestLoop st xs).2.1.length)
        (ingestLoop st xs).2.1 errsOpt := by
  simp only [postUpload, uploadHandler, analyzeTransactionImage, hmime, hsize,
    Bool.not_true, Bool.false_eq_true, if_false]
  rw [if_neg (by simpa using hne)]
  cases hr : ingestLoop st xs with
  | mk st2 p =>
    rw [hr] at hsaved
    cases p with
    | mk saved errs =>
      simp only at hsaved ⊢
      rw [if_pos (by simpa [List.length_pos] using hsaved)]
      refine ⟨if errs.isEmpty then none else some errs, ?_⟩
      simp [successMsg]

/-- Claim C8 witness: the amended format at the concrete two-candidate
scenario. -/
theorem c8_summary_format_witness :
    ∃ errsOpt, (postUpload stEmpty (some imgFile)
        (some (.arr [candCafeLuna, candPayroll]))).2 =
      UploadResult.created
        ("Processed " ++ toString ([candCafeLuna, candPayroll] : List Json).length ++
          " potential transactions, successfully saved " ++
          toString (ingestLoop stEmpty [candCafeLuna, candPayroll]).2.1.length)
        (ingestLoop stEmpty [candCafeLuna, candPayroll]).2.1 errsOpt :=
  c8_summary_format stEmpty imgFile [candCafeLuna, candPayroll] rfl (by decide)
    (by simp)
    (by
      rw [show (ingestLoop stEmpty [candCafeLuna, candPayroll]).2.1 =
        [⟨0, "Cafe Luna", negTwelvePointFive, .str "2024-03-15", none⟩,
         ⟨1, "Payroll", 2000, .str "2024-03-14", none⟩] from rfl]
      simp)

/-- Claim C9: a rejected upload triggers no extraction and no persistence (the
outcome is independent of the decoded extraction input and the store is
unchanged), but the outcome is never a client error: both a non-image content
type and an oversize image are passed to `next(err)` by the multer middleware,
the handler (with its 400-producing error mapping) never runs, and with no
error-handling middleware registered Express's default handler answers 500 in
both cases. -/
theorem c9_rejection_outcomes :
    (∀ st d1 d2,
        postUpload st (some txtFile) d1 =
          (st, .expressError "Only image files are allowed for receipts!") ∧
        postUpload st (some txtFile) d1 = postUpload st (some txtFile) d2) ∧
    (∀ st d1 d2,
        postUpload st (some bigFile) d1 = (st, .expressError "File too large") ∧
        postUpload st (some bigFile) d1 = postUpload st (some bigFile) d2) :=
  ⟨fun _ _ _ => ⟨rfl, rfl⟩, fun _ _ _ => ⟨rfl, rfl⟩⟩

/-- Claim C10: a candidate whose amount is exactly 0 — JavaScript-falsy despite
being a present, finite number — always takes the missing-required-fields
branch: it yields that failure descriptor, is never persisted, and the store is
unchanged, whatever the other fields hold. -/
theorem c10_zero_amount_never_ingested (st : Store) (c : Json)
    (h : getField c "amount" = some (.num 0)) :
    processCandidate st c = (st, Sum.inr ⟨missingFieldsMsg, some c⟩) := by
  have ht : truthy (getField c "amount") = false := by rw [h]; simp [truthy]
  unfold processCandidate
  rw [ht]
  simp

/-- Claim C10 witness: the zero-amount candidate with well-formed merchant and
date is rejected as missing required fields. -/
theorem c10_zero_amount_witness :
    getField candZeroAmount "amount" = some (.num 0) ∧
    processCandidate stEmpty candZeroAmount =
      (stEmpty, Sum.inr ⟨missingFieldsMsg, some candZeroAmount⟩) :=
  ⟨rfl, c10_zero_amount_never_ingested stEmpty candZeroAmount rfl⟩

/-- Claim C1 witness: find-only resolution at the concrete `Cafe Luna`
candidate against a store that already holds `Dining` (id 7). -/
theorem c1_find_only_witness :
    getField candCafeLuna "category" = some (.str "Dining") ∧
    categoryResolve stDining (getField candCafeLuna "category") = .ok (some 7) := by
  refine ⟨rfl, ?_⟩
  exact (c1_find_only_resolution stDining candCafeLuna "Dining" rfl (by decide)).1.trans rfl

/-- Claim C2: every transaction the per-candidate step persists has a
non-empty merchant string, a (finite, as every decoded JSON number is) rational
amount, and a date whose `new Date` conversion is a valid calendar date, and is
appended to the store; conversely a candidate violating any of those three is
never persisted — the store is unchanged — and yields a failure descriptor
instead. -/
theorem c2_persistence_invariant (st : Store) (c : Json) :
    (∀ st2 t, processCandidate st c = (st2, Sum.inl t) →
        violatesInvariant c = false ∧ t.merchant ≠ "" ∧ jsNewDateValid t.date = true ∧
        st2.transactions = st.transactions ++ [t]) ∧
    (violatesInvariant c = true →
        (processCandidate st c).1 = st ∧ ∃ e, (processCandidate st c).2 = Sum.inr e) := by
  constructor
  · intro st2 t h
    obtain ⟨hf, ht, htx⟩ := processCandidate_inl_inv st st2 c t h
    obtain ⟨-, hm, -, -, hms, has, hds⟩ := candidateFails_none_inv c hf
    refine ⟨?_, ?_, ?_, htx⟩
    · unfold violatesInvariant
      cases hgm : getField c "merchant" with
      | none => rw [hgm] at hms; simp [isStr] at hms
      | some jm =>
        cases jm <;> rw [hgm] at hms hm <;> try simp [isStr] at hms
        case str s =>
          simp [truthy] at hm
          simp [hm, has, hds]
    · rw [ht]
      unfold mkTransaction optStr
      cases hgm : getField c "merchant" with
      | none => rw [hgm] at hms; simp [isStr] at hms
      | some jm =>
        cases jm <;> rw [hgm] at hms hm <;> try simp [isStr] at hms
        case str s => simpa [truthy] using hm
    · rw [ht]
      unfold mkTransaction optJsonD
      cases hgd : getField c "date" with
      | none => rw [hgd] at hds; simp [dateValidOpt] at hds
      | some d => rw [hgd] at hds; simpa [dateValidOpt] using hds
  · intro hv
    cases hf : candidateFails c with
    | some e =>
      rw [processCandidate_of_fail st c e hf]
      exact ⟨rfl, e, rfl⟩
    | none =>
      exfalso
      obtain ⟨-, hm, -, -, hms, has, hds⟩ := candidateFails_none_inv c hf
      unfold violatesInvariant at hv
      simp [has, hds] at hv
      cases hgm : getField c "merchant" with
      | none => rw [hgm] at hms; simp [isStr] at hms
      | some jm =>
        cases jm <;> rw [hgm] at hms hm hv <;> try simp [isStr] at hms
        case str s =>
          simp [truthy] at hm
          simp [hm] at hv

/-- Claim C2 witness: a candidate with an invalid date violates the invariant
and is not persisted (the store is unchanged). -/
theorem c2_persistence_invariant_witness :
    violatesInvariant candBadDate = true ∧
    (processCandidate stEmpty candBadDate).1 = stEmpty := by
  refine ⟨rfl, ?_⟩
  exact ((c2_persistence_invariant stEmpty candBadDate).2 rfl).1

/-- Claim C4: when the decoded extraction response is undecodable, not an
array, or an empty array, the whole request fails with the handler's 500 and
no persistence happens (the store comes back unchanged); for the undecodable
and non-array shapes, the extraction step itself raises a descriptive parse
error. -/
theorem c4_malformed_extraction_fatal (st : Store) (f : FileInfo) (decoded : Option Json)
    (hmime : fileFilterAccepts f = true) (hsize : withinSizeLimit f = true)
    (hbad : ∀ xs, decoded = some (.arr xs) → xs = []) :
    postUpload st (some f) decoded = (st, .serverError serverErrorMsg) ∧
    (decoded = none ∨ (∃ j, decoded = some j ∧ isArr j = false) →
        ∃ msg, analyzeTransactionImage decoded = Except.error msg) := by
  constructor
  · have hstep : postUpload st (some f) decoded = uploadHandler st (some f) decoded := by
      simp [postUpload, hmime, hsize]
    rw [hstep]
    cases decoded with
    | none => rfl
    | some j =>
      cases j with
      | arr xs => rw [hbad xs rfl]; rfl
      | null => rfl
      | bool b => rfl
      | num q => rfl
      | str s => rfl
      | obj fs => rfl
  · intro hd
    rcases hd with rfl | ⟨j, rfl, hj⟩
    · exact ⟨_, rfl⟩
    · cases j with
      | arr xs => simp [isArr] at hj
      | null => exact ⟨_, rfl⟩
      | bool b => exact ⟨_, rfl⟩
      | num q => exact ⟨_, rfl⟩
      | str s => exact ⟨_, rfl⟩
      | obj fs => exact ⟨_, rfl⟩

/-- Claim C4 witness: the extraction response `"not an array"` is fatal — the
store is unchanged, the response is the 500, and the parse step raised a
descriptive error. -/
theorem c4_malformed_extraction_witness :
    postUpload stEmpty (some imgFile) (some (.str "not an array")) =
      (stEmpty, .serverError serverErrorMsg) ∧
    (∃ msg, analyzeTransactionImage (some (.str "not an array")) = Except.error msg) := by
  have h := c4_malformed_extraction_fatal stEmpty imgFile (some (.str "not an array"))
    rfl (by decide) (fun xs hx => Json.noConfusion (Option.some.inj hx))
  exact ⟨h.1, h.2 (Or.inr ⟨_, rfl, rfl⟩)⟩

/-- Claim C5: each candidate contributes exactly one entry to either the saved
list or the failure list (their lengths sum to the batch size); a failing
candidate — missing required fields, non-numeric amount, or a throwing
persistence attempt, exactly the cases classified by `candidateFails` —
contributes one failure descriptor, leaves the store untouched, and the loop
continues over the remaining candidates with earlier successes retained; in
the concrete three-candidate batch with one non-numeric amount, exactly two
transactions are persisted and one failure descriptor references the bad
candidate. -/
theorem c5_failure_isolation :
    (∀ st cs, (ingestLoop st cs).2.1.length + (ingestLoop st cs).2.2.length = cs.length) ∧
    (∀ st pre c post e, candidateFails c = some e →
        ingestLoop st (pre ++ c :: post) =
          ((ingestLoop (ingestLoop st pre).1 post).1,
           (ingestLoop st pre).2.1 ++ (ingestLoop (ingestLoop st pre).1 post).2.1,
           (ingestLoop st pre).2.2 ++ e :: (ingestLoop (ingestLoop st pre).1 post).2.2)) ∧
    ingestLoop stEmpty [candCafeLuna, candBadAmount, candPayroll] =
      (⟨[], [⟨0, "Cafe Luna", negTwelvePointFive, .str "2024-03-15", none⟩,
             ⟨1, "Payroll", 2000, .str "2024-03-14", none⟩], 2⟩,
       [⟨0, "Cafe Luna", negTwelvePointFive, .str "2024-03-15", none⟩,
        ⟨1, "Payroll", 2000, .str "2024-03-14", none⟩],
       [⟨amountTypeMsg, some candBadAmount⟩]) ∧
    (postUpload stEmpty (some imgFile)
        (some (.arr [candCafeLuna, candBadAmount, candPayroll]))).2 =
      UploadResult.created (successMsg 3 2)
        [⟨0, "Cafe Luna", negTwelvePointFive, .str "2024-03-15", none⟩,
         ⟨1, "Payroll", 2000, .str "2024-03-14", none⟩]
        (some [⟨amountTypeMsg, some candBadAmount⟩]) := by
  refine ⟨fun st cs => ingestLoop_count st cs, ?_, rfl, rfl⟩
  intro st pre c post e hf
  rw [ingestLoop_append]
  have h1 : ingestLoop (ingestLoop st pre).1 (c :: post) =
      ((ingestLoop (ingestLoop st pre).1 post).1,
       (ingestLoop (ingestLoop st pre).1 post).2.1,
       e :: (ingestLoop (ingestLoop st pre).1 post).2.2) := by
    simp only [ingestLoop, processCandidate_of_fail _ c e hf]
  rw [h1]

/-- Claim C5 witness: the isolation equation at the concrete batch with the
non-numeric-amount candidate in the middle. -/
theorem c5_failure_isolation_witness :
    ingestLoop stEmpty ([candCafeLuna] ++ candBadAmount :: [candPayroll]) =
      ((ingestLoop (ingestLoop stEmpty [candCafeLuna]).1 [candPayroll]).1,
       (ingestLoop stEmpty [candCafeLuna]).2.1 ++
         (ingestLoop (ingestLoop stEmpty [candCafeLuna]).1 [candPayroll]).2.1,
       (ingestLoop stEmpty [candCafeLuna]).2.2 ++
         ⟨amountTypeMsg, some candBadAmount⟩ ::
           (ingestLoop (ingestLoop stEmpty [candCafeLuna]).1 [candPayroll]).2.2) :=
  c5_failure_isolation.2.1 stEmpty [candCafeLuna] candBadAmount [candPayroll]
    ⟨amountTypeMsg, some candBadAmount⟩ rfl

/-- Claim C6: no transaction with an invalid date is ever persisted (the date
value of every persisted transaction converts to a valid calendar date — the
store layer checks it before writing the row), and a candidate whose fields are
present, whose amount is numeric and merchant a string, and whose category
passes the filter, but whose date does not parse to a real calendar date,
yields one failure descriptor (citing the invalid date via the store error)
while the loop continues over the remaining candidates with the store
unchanged. -/
theorem c6_invalid_date_isolated :
    (∀ st c st2 t, processCandidate st c = (st2, Sum.inl t) →
        jsNewDateValid t.date = true) ∧
    (∀ st c rest,
        truthy (some c) = true → truthy (getField c "merchant") = true →
        truthy (getField c "amount") = true → truthy (getField c "date") = true →
        isStr (getField c "merchant") = true → isNum (getField c "amount") = true →
        categoryFilterBad (getField c "category") = false →
        dateValidOpt (getField c "date") = false →
        ingestLoop st (c :: rest) =
          ((ingestLoop st rest).1, (ingestLoop st rest).2.1,
           ⟨saveFailMsg (getField c "merchant") invalidDateMsg, none⟩ ::
             (ingestLoop st rest).2.2)) := by
  constructor
  · intro st c st2 t h
    obtain ⟨hf, ht, -⟩ := processCandidate_inl_inv st st2 c t h
    obtain ⟨-, -, -, -, -, -, hds⟩ := candidateFails_none_inv c hf
    rw [ht]
    unfold mkTransaction optJsonD
    cases hgd : getField c "date" with
    | none => rw [hgd] at hds; simp [dateValidOpt] at hds
    | some d => rw [hgd] at hds; simpa [dateValidOpt] using hds
  · intro st c rest h1 h2 h3 h4 hm ha hcat hd
    have hf : candidateFails c =
        some ⟨saveFailMsg (getField c "merchant") invalidDateMsg, none⟩ := by
      unfold candidateFails createFails
      rw [h1, h2, h3, h4, hcat, ha]
      simp only [Bool.not_true, Bool.or_self, Bool.false_eq_true, if_false]
      cases hgm : getField c "merchant" with
      | none => rw [hgm] at hm; simp [isStr] at hm
      | some jm =>
        cases jm <;> rw [hgm] at hm <;> try simp [isStr] at hm
        case str s =>
          cases hga : getField c "amount" with
          | none => rw [hga] at ha; simp [isNum] at ha
          | some ja =>
            cases ja <;> rw [hga] at ha <;> try simp [isNum] at ha
            case num q => simp [hd]
    simp only [ingestLoop, processCandidate_of_fail st c _ hf]

/-- Claim C6 witness: the invalid-date candidate `Cafe` is not persisted and
yields the save-failure descriptor carrying the store's invalid-date error. -/
theorem c6_invalid_date_witness :
    ingestLoop stEmpty [candBadDate] =
      (stEmpty, [],
       [⟨"Failed to save transaction Cafe: Provided Date object is invalid", none⟩]) := by
  have h := c6_invalid_date_isolated.2 stEmpty candBadDate [] rfl rfl rfl rfl rfl rfl rfl rfl
  exact h.trans rfl

/-- Claim C7: when the batch was non-empty and at least one candidate was
persisted, the response is the HTTP-analogous created outcome carrying the
summary message, the ordered list of persisted transactions, and the ordered
failure-descriptor list attached only when it is non-empty (no failure list is
attached when no item failed), and the final store is the loop's. -/
theorem c7_created_response (st : Store) (f : FileInfo) (xs : List Json)
    (hmime : fileFilterAccepts f = true) (hsize : withinSizeLimit f = true)
    (hne : xs ≠ []) (hsaved : (ingestLoop st xs).2.1 ≠ []) :
    postUpload st (some f) (some (.arr xs)) =
      ((ingestLoop st xs).1,
       UploadResult.created (successMsg xs.length (ingestLoop st xs).2.1.length)
         (ingestLoop st xs).2.1
         (if (ingestLoop st xs).2.2.isEmpty then none
          else some (ingestLoop st xs).2.2)) := by
  simp only [postUpload, uploadHandler, analyzeTransactionImage, hmime, hsize,
    Bool.not_true, Bool.false_eq_true, if_false]
  rw [if_neg (by simpa using hne)]
  cases hr : ingestLoop st xs with
  | mk st2 p =>
    rw [hr] at hsaved
    cases p with
    | mk saved errs =>
      simp only at hsaved ⊢
      rw [if_pos (by simpa [List.length_pos] using hsaved)]

/-- Claim C7 witness: the created response at the concrete two-candidate batch
with no failures (no error list attached). -/
theorem c7_created_response_witness :
    postUpload stEmpty (some imgFile) (some (.arr [candCafeLuna, candPayroll])) =
      ((ingestLoop stEmpty [candCafeLuna, candPayroll]).1,
       UploadResult.created
         (successMsg ([candCafeLuna, candPayroll] : List Json).length
           (ingestLoop stEmpty [candCafeLuna, candPayroll]).2.1.length)
         (ingestLoop stEmpty [candCafeLuna, candPayroll]).2.1
         (if (ingestLoop stEmpty [candCafeLuna, candPayroll]).2.2.isEmpty then none
          else some (ingestLoop stEmpty [candCafeLuna, candPayroll]).2.2)) :=
  c7_created_response stEmpty imgFile [candCafeLuna, candPayroll] rfl (by decide)
    (by simp)
    (by
      rw [show (ingestLoop stEmpty [candCafeLuna, candPayroll]).2.1 =
        [⟨0, "Cafe Luna", negTwelvePointFive, .str "2024-03-15", none⟩,
         ⟨1, "Payroll", 2000, .str "2024-03-14", none⟩] from rfl]
      simp)

end SmortMoney
